import Mathlib

/-
Shallow embedding of the flytekit NVCF plugin (flytekitplugins/nvcf), covering
the lifecycle agent in agent.py and the data models in models.py.

Python strings are Lean String; Optional[T] is Option T; dataclass instances
are structures; an exception raised out of a function is Except.error.
External effects (the NGC SDK network calls) are modelled by passing the
outcome of each call as an explicit parameter, and the sequence of adapter
calls actually issued is returned alongside the result so that claims about
which calls happen can be stated.
-/

namespace NVCF

/-- Flyte execution phases used by the agent (flyteidl TaskExecution values
that appear in agent.py). -/
inductive Phase where
  | QUEUED
  | RUNNING
  | SUCCEEDED
  | FAILED
  | ABORTED
  | UNDEFINED
deriving DecidableEq, Repr

/-- NVCFMetadata from models.py: the resource handle.  Fields and defaults
mirror the dataclass declaration (models.py lines 106-128).  percent_complete
is Optional[int], modelled as Option Int. -/
structure NVCFMetadata where
  api_key : String
  org_name : String
  base_url : String := "https://api.nvct.nvidia.com/v1/nvct"
  task_id : Option String := none
  name : Option String := none
  status : Option String := none
  percent_complete : Option Int := none
  created_at : Option String := none
  last_updated_at : Option String := none
deriving DecidableEq, Repr

/-- NVCFMetadata.update_status (models.py lines 130-142): always overwrites
status; overwrites percent_complete and last_updated_at only when the
corresponding argument is not None; returns self.  In this value-level
embedding the returned value is the post-state of the mutated object. -/
def update_status (m : NVCFMetadata) (status : String)
    (percent_complete : Option Int) (last_updated_at : Option String) :
    NVCFMetadata :=
  let m1 : NVCFMetadata := { m with status := some status }
  let m2 : NVCFMetadata :=
    match percent_complete with
    | some p => { m1 with percent_complete := some p }
    | none => m1
  match last_updated_at with
  | some t => { m2 with last_updated_at := some t }
  | none => m2

/-- NVCFAgent._map_status_to_phase (agent.py lines 260-282), translated
branch by branch; the second component is the phase version returned by the
source. -/
def map_status_to_phase (status : String) : Phase × Nat :=
  if status = "QUEUED" then
    (Phase.QUEUED, 0)
  else if status = "LAUNCHED" ∨ status = "RUNNING" then
    (Phase.RUNNING, 0)
  else if status = "COMPLETED" then
    (Phase.SUCCEEDED, 0)
  else if status = "FAILED" ∨ status = "ERRORED" ∨
      status = "EXCEEDED_MAX_RUNTIME_DURATION" ∨
      status = "EXCEEDED_MAX_QUEUED_DURATION" then
    (Phase.FAILED, 0)
  else if status = "CANCELED" then
    (Phase.ABORTED, 0)
  else
    (Phase.UNDEFINED, 0)

/-- Spec-side phase table, written from the section 4.3 table of the spec
(remote status to orchestrator phase; anything else is UNDEFINED).  This is
the reference definition that map_status_to_phase is compared against. -/
def specPhaseTable (status : String) : Phase :=
  if status = "QUEUED" then Phase.QUEUED
  else if status = "LAUNCHED" then Phase.RUNNING
  else if status = "RUNNING" then Phase.RUNNING
  else if status = "COMPLETED" then Phase.SUCCEEDED
  else if status = "ERRORED" then Phase.FAILED
  else if status = "EXCEEDED_MAX_RUNTIME_DURATION" then Phase.FAILED
  else if status = "EXCEEDED_MAX_QUEUED_DURATION" then Phase.FAILED
  else if status = "FAILED" then Phase.FAILED
  else if status = "CANCELED" then Phase.ABORTED
  else Phase.UNDEFINED

/-- C1: for every remote status string, the status mapper returns exactly the
phase given by the section 4.3 table: QUEUED maps to the queued phase,
LAUNCHED and RUNNING map to RUNNING, COMPLETED maps to SUCCEEDED, each of
ERRORED, EXCEEDED_MAX_RUNTIME_DURATION, EXCEEDED_MAX_QUEUED_DURATION and
FAILED maps to FAILED, CANCELED maps to ABORTED, and every other string maps
to UNDEFINED. -/
theorem map_status_matches_spec_table (s : String) :
    (map_status_to_phase s).1 = specPhaseTable s := by
  unfold map_status_to_phase specPhaseTable
  by_cases h1 : s = "QUEUED" <;> by_cases h2 : s = "LAUNCHED" <;>
    by_cases h3 : s = "RUNNING" <;> by_cases h4 : s = "COMPLETED" <;>
    by_cases h5 : s = "ERRORED" <;>
    by_cases h6 : s = "EXCEEDED_MAX_RUNTIME_DURATION" <;>
    by_cases h7 : s = "EXCEEDED_MAX_QUEUED_DURATION" <;>
    by_cases h8 : s = "FAILED" <;> by_cases h9 : s = "CANCELED" <;>
    simp_all

/-- C4 counterexample: the mapper does not return tiebreak rank 0 for QUEUED,
rank 1 for LAUNCHED and rank 2 for RUNNING; the source returns phase version
0 in every branch, so LAUNCHED gets 0, not 1. -/
theorem rank_claim_false :
    ¬ ((map_status_to_phase "QUEUED").2 = 0 ∧
       (map_status_to_phase "LAUNCHED").2 = 1 ∧
       (map_status_to_phase "RUNNING").2 = 2) := by
  decide

/-- C4 amended: the status mapper returns tiebreak rank 0 for every status,
including QUEUED, LAUNCHED and RUNNING, so LAUNCHED and RUNNING are not
distinguished by rank. -/
theorem rank_always_zero (s : String) :
    (map_status_to_phase s).2 = 0 := by
  unfold map_status_to_phase
  repeat' split
  all_goals rfl

/-- C10: update_status with status s and both optional arguments None sets
the status field to s, leaves percent_complete, last_updated_at and every
other field unchanged, and returns the (post-state of the) object it was
called on. -/
theorem update_status_none_frame (m : NVCFMetadata) (s : String) :
    (update_status m s none none).status = some s ∧
    (update_status m s none none).percent_complete = m.percent_complete ∧
    (update_status m s none none).last_updated_at = m.last_updated_at ∧
    (update_status m s none none).api_key = m.api_key ∧
    (update_status m s none none).org_name = m.org_name ∧
    (update_status m s none none).base_url = m.base_url ∧
    (update_status m s none none).task_id = m.task_id ∧
    (update_status m s none none).name = m.name ∧
    (update_status m s none none).created_at = m.created_at := by
  simp [update_status]

/-- Outcome of the client.cloud_function.tasks.info call made by
NVCFAgent.get.  On success the remote returns a task record; the agent reads
its status field.  The percent-complete and last-updated values the remote
would carry are included so that claims about them can be stated; the source
reads only task_data.task.status. -/
inductive InfoResult where
  | ok (status : String) (percentComplete : Int) (lastUpdatedAt : String)
  | error (msg : String)
deriving DecidableEq, Repr

/-- Resource returned to the orchestrator by NVCFAgent.get: a phase plus a
human message.  The outputs field of the source is always None (the
results-retrieval code is commented out), so it is omitted. -/
structure Resource where
  phase : Phase
  message : String
deriving DecidableEq, Repr

/-- NVCFAgent.get (agent.py lines 183-230).  The pair returned is the
Resource handed back to the caller together with the state of resource_meta
after the call.  The source never assigns to any field of resource_meta, so
the metadata component is the input in every branch; the except branch
returns a FAILED Resource to the caller instead of raising. -/
def get (resource_meta : NVCFMetadata) (info : InfoResult) :
    Resource × NVCFMetadata :=
  match resource_meta.task_id with
  | none =>
      ({ phase := Phase.UNDEFINED,
         message := "Task ID is missing in resource metadata" }, resource_meta)
  | some _ =>
      match info with
      | InfoResult.ok status _ _ =>
          let phase := (map_status_to_phase status).1
          if status = "FAILED" then
            ({ phase := phase, message := "Task execution failed" },
             resource_meta)
          else
            ({ phase := phase, message := status }, resource_meta)
      | InfoResult.error e =>
          ({ phase := Phase.FAILED,
             message := "Unable to determine task status: " ++ e },
           resource_meta)

/-- A concrete handle used by the closed counterexample theorems: a submitted
task last observed as QUEUED. -/
def sampleMeta : NVCFMetadata :=
  { api_key := "key", org_name := "org", task_id := some "task-123",
    status := some "QUEUED", percent_complete := some 0 }

/-- C2 counterexample: polling sampleMeta while the adapter reports status
RUNNING, 50 percent complete, last updated at a fresh timestamp, leaves the
metadata completely unchanged; in particular its status field is still
QUEUED, not the RUNNING the claim requires, because NVCFAgent.get never
calls update_status nor writes any resource_meta field. -/
theorem get_does_not_mutate_counterexample :
    (get sampleMeta (InfoResult.ok "RUNNING" 50 "2024-01-01T00:00:00")).2
        = sampleMeta ∧
    (get sampleMeta (InfoResult.ok "RUNNING" 50 "2024-01-01T00:00:00")).2.status
        ≠ some "RUNNING" := by
  constructor
  · rfl
  · decide

/-- C2 amended: for every poll of a metadata handle whose adapter info call
succeeds, get leaves the given metadata unchanged (it never mutates the
status, percent-complete or last-updated fields) and returns a phase
consistent with the section 4.3 mapping for the returned status. -/
theorem get_frame_and_phase (m : NVCFMetadata) (tid : String)
    (h : m.task_id = some tid) (status : String) (p : Int) (ts : String) :
    (get m (InfoResult.ok status p ts)).2 = m ∧
    (get m (InfoResult.ok status p ts)).1.phase
        = (map_status_to_phase status).1 := by
  unfold get
  rw [h]
  by_cases hf : status = "FAILED" <;> simp [hf]

/-- C2 amended, witness: instantiated at sampleMeta and a RUNNING poll. -/
theorem get_frame_and_phase_witness :
    (get sampleMeta (InfoResult.ok "RUNNING" 50 "2024-01-01T00:00:00")).2
        = sampleMeta ∧
    (get sampleMeta (InfoResult.ok "RUNNING" 50 "2024-01-01T00:00:00")).1.phase
        = (map_status_to_phase "RUNNING").1 :=
  get_frame_and_phase sampleMeta "task-123" rfl "RUNNING" 50
    "2024-01-01T00:00:00"

/-- C9: a poll that observes remote status FAILED yields phase FAILED with
the task-specific message, a poll whose info call raises yields phase FAILED
returned to the caller with the transport-specific message carrying the
underlying error text, and for every underlying error text the two messages
differ. -/
theorem failed_task_vs_failed_poll (m : NVCFMetadata) (tid : String)
    (h : m.task_id = some tid) (p : Int) (ts e : String) :
    ((get m (InfoResult.ok "FAILED" p ts)).1.phase = Phase.FAILED ∧
     (get m (InfoResult.ok "FAILED" p ts)).1.message
        = "Task execution failed") ∧
    ((get m (InfoResult.error e)).1.phase = Phase.FAILED ∧
     (get m (InfoResult.error e)).1.message
        = "Unable to determine task status: " ++ e) ∧
    "Task execution failed" ≠ "Unable to determine task status: " ++ e := by
  refine ⟨?_, ?_, ?_⟩
  · unfold get
    rw [h]
    constructor
    · simp [map_status_to_phase]
    · simp
  · unfold get
    rw [h]
    exact ⟨rfl, rfl⟩
  · intro hEq
    have hlen := congrArg String.length hEq
    rw [String.length_append] at hlen
    have h1 : ("Task execution failed" : String).length = 21 := rfl
    have h2 : ("Unable to determine task status: " : String).length = 33 := rfl
    rw [h1, h2] at hlen
    omega

/-- C9 witness: instantiated at sampleMeta with a concrete transport error. -/
theorem failed_task_vs_failed_poll_witness :
    ((get sampleMeta (InfoResult.ok "FAILED" 0 "ts")).1.phase = Phase.FAILED ∧
     (get sampleMeta (InfoResult.ok "FAILED" 0 "ts")).1.message
        = "Task execution failed") ∧
    ((get sampleMeta (InfoResult.error "connection reset")).1.phase
        = Phase.FAILED ∧
     (get sampleMeta (InfoResult.error "connection reset")).1.message
        = "Unable to determine task status: " ++ "connection reset") ∧
    "Task execution failed"
        ≠ "Unable to determine task status: " ++ "connection reset" :=
  failed_task_vs_failed_poll sampleMeta "task-123" rfl 0 "ts"
    "connection reset"

/-- Adapter calls issued by the agent, recorded in issue order. -/
inductive Call where
  | createCall
  | cancel
  | sleepGrace
  | deleteCall
  | infoCall
deriving DecidableEq, Repr

/-- Outcome of the client.cloud_function.tasks.cancel call. -/
inductive CancelOutcome where
  | ok
  | error (msg : String)
deriving DecidableEq, Repr

/-- Outcome of the client.cloud_function.tasks.delete call: success,
a simplejson JSONDecodeError raised while parsing an empty body, or any
other exception. -/
inductive DeleteOutcome where
  | ok
  | jsonDecodeError
  | error (msg : String)
deriving DecidableEq, Repr

/-- Outcome of the diagnostic client.cloud_function.tasks.info re-check made
after a delete failure. -/
inductive InfoOutcome where
  | ok (status : String)
  | error (msg : String)
deriving DecidableEq, Repr

/-- Outcomes the remote service would give to each call teardown might make;
a call that is never issued simply never consumes its outcome. -/
structure TeardownEnv where
  cancelOutcome : CancelOutcome
  deleteOutcome : DeleteOutcome
  infoOutcome : InfoOutcome
deriving DecidableEq, Repr

/-- NVCFAgent._safe_delete (agent.py lines 336-349): issue the delete call
once; a JSONDecodeError from an empty response is treated as success; every
other exception is re-raised. -/
def safe_delete (outcome : DeleteOutcome) : Except String Unit :=
  match outcome with
  | DeleteOutcome.ok => Except.ok ()
  | DeleteOutcome.jsonDecodeError => Except.ok ()
  | DeleteOutcome.error e => Except.error e

/-- NVCFAgent.delete (agent.py lines 284-334), the teardown operation.
Returns the result seen by the caller and the list of adapter calls issued.
If task_id is absent, return immediately with no calls.  Otherwise: when the
last known status is QUEUED, LAUNCHED or RUNNING, attempt cancel (a cancel
exception is logged and swallowed; on success an asyncio.sleep(2) grace wait
follows).  Then run _safe_delete; if it raises, make one diagnostic info
call.  In the source, the RuntimeError raised when that info call succeeds
(task still exists, agent.py line 328) is raised inside the same try block
whose bare except Exception at line 329 catches every exception, so both
info branches fall through to log-and-continue and teardown returns
normally; no exception reaches the outer handler. -/
def delete (resource_meta : NVCFMetadata) (env : TeardownEnv) :
    Except String Unit × List Call :=
  match resource_meta.task_id with
  | none => (Except.ok (), [])
  | some _ =>
      let cancelCalls : List Call :=
        if resource_meta.status = some "QUEUED" ∨
            resource_meta.status = some "LAUNCHED" ∨
            resource_meta.status = some "RUNNING" then
          match env.cancelOutcome with
          | CancelOutcome.ok => [Call.cancel, Call.sleepGrace]
          | CancelOutcome.error _ => [Call.cancel]
        else []
      match safe_delete env.deleteOutcome with
      | Except.ok _ => (Except.ok (), cancelCalls ++ [Call.deleteCall])
      | Except.error _ =>
          match env.infoOutcome with
          | InfoOutcome.ok _ =>
              (Except.ok (), cancelCalls ++ [Call.deleteCall, Call.infoCall])
          | InfoOutcome.error _ =>
              (Except.ok (), cancelCalls ++ [Call.deleteCall, Call.infoCall])

/-- C3: evaluation at the failing input.  A handle in terminal status
COMPLETED, a delete call failing with an ordinary error, and a diagnostic
re-check that succeeds (the task is still present) nevertheless make
teardown return normally with no error: the escalation required by the claim
never escapes, because the except Exception at agent.py line 329 catches the
RuntimeError raised at line 328. -/
theorem teardown_swallows_escalation :
    delete { api_key := "key", org_name := "org",
             task_id := some "task-123", status := some "COMPLETED" }
        { cancelOutcome := CancelOutcome.ok,
          deleteOutcome := DeleteOutcome.error "permission denied",
          infoOutcome := InfoOutcome.ok "RUNNING" }
      = (Except.ok (), [Call.deleteCall, Call.infoCall]) := by
  rfl

/-- C7: when the adapter delete call fails only with a JSON decode error
from an empty body, _safe_delete reports success, teardown completes without
raising, and exactly one delete call is issued. -/
theorem empty_response_delete_is_success (m : NVCFMetadata) (tid : String)
    (h : m.task_id = some tid) (env : TeardownEnv)
    (hd : env.deleteOutcome = DeleteOutcome.jsonDecodeError) :
    safe_delete env.deleteOutcome = Except.ok () ∧
    (delete m env).1 = Except.ok () ∧
    (delete m env).2.count Call.deleteCall = 1 := by
  refine ⟨by rw [hd]; rfl, ?_, ?_⟩
  · unfold delete
    rw [h, hd]
    rfl
  · unfold delete
    rw [h, hd]
    by_cases hc : m.status = some "QUEUED" ∨ m.status = some "LAUNCHED" ∨
        m.status = some "RUNNING"
    · simp only [hc, if_pos]
      cases env.cancelOutcome <;> simp [safe_delete, List.count_append]
    · simp only [hc, if_neg, not_false_iff]
      simp [safe_delete, List.count_append]

/-- C7 witness: instantiated at sampleMeta with every outcome concrete. -/
theorem empty_response_delete_is_success_witness :
    safe_delete DeleteOutcome.jsonDecodeError = Except.ok () ∧
    (delete sampleMeta
        { cancelOutcome := CancelOutcome.ok,
          deleteOutcome := DeleteOutcome.jsonDecodeError,
          infoOutcome := InfoOutcome.ok "RUNNING" }).1 = Except.ok () ∧
    (delete sampleMeta
        { cancelOutcome := CancelOutcome.ok,
          deleteOutcome := DeleteOutcome.jsonDecodeError,
          infoOutcome := InfoOutcome.ok "RUNNING" }).2.count Call.deleteCall
        = 1 :=
  empty_response_delete_is_success sampleMeta "task-123" rfl
    { cancelOutcome := CancelOutcome.ok,
      deleteOutcome := DeleteOutcome.jsonDecodeError,
      infoOutcome := InfoOutcome.ok "RUNNING" } rfl

/-- C8: teardown on a handle with no remote id makes no adapter calls and
returns normally; on a handle with a remote id, cancel is attempted exactly
when the last known status is QUEUED, LAUNCHED or RUNNING, and delete is
attempted in every case. -/
theorem teardown_call_pattern (m : NVCFMetadata) (env : TeardownEnv) :
    (m.task_id = none → delete m env = (Except.ok (), [])) ∧
    (m.task_id ≠ none →
      ((Call.cancel ∈ (delete m env).2) ↔
        (m.status = some "QUEUED" ∨ m.status = some "LAUNCHED" ∨
         m.status = some "RUNNING")) ∧
      Call.deleteCall ∈ (delete m env).2) := by
  constructor
  · intro h
    unfold delete
    rw [h]
  · intro h
    obtain ⟨tid, htid⟩ := Option.ne_none_iff_exists.mp h
    unfold delete
    rw [← htid]
    by_cases hc : m.status = some "QUEUED" ∨ m.status = some "LAUNCHED" ∨
        m.status = some "RUNNING"
    · simp only [hc, if_pos, iff_true]
      cases env.cancelOutcome <;> cases hdel : safe_delete env.deleteOutcome <;>
        cases env.infoOutcome <;> simp
    · simp only [hc, if_neg, not_false_iff, iff_false]
      cases hdel : safe_delete env.deleteOutcome <;>
        cases env.infoOutcome <;> simp

/-- C8 witness: a handle in terminal status COMPLETED gets no cancel call
but does get a delete call. -/
theorem teardown_call_pattern_witness :
    ((Call.cancel ∈ (delete
        { api_key := "key", org_name := "org",
          task_id := some "task-123", status := some "COMPLETED" }
        { cancelOutcome := CancelOutcome.ok,
          deleteOutcome := DeleteOutcome.ok,
          infoOutcome := InfoOutcome.ok "COMPLETED" }).2) ↔
      (({ api_key := "key", org_name := "org",
          task_id := some "task-123",
          status := some "COMPLETED" } : NVCFMetadata).status = some "QUEUED" ∨
       ({ api_key := "key", org_name := "org",
          task_id := some "task-123",
          status := some "COMPLETED" } : NVCFMetadata).status = some "LAUNCHED" ∨
       ({ api_key := "key", org_name := "org",
          task_id := some "task-123",
          status := some "COMPLETED" } : NVCFMetadata).status = some "RUNNING")) ∧
    Call.deleteCall ∈ (delete
        { api_key := "key", org_name := "org",
          task_id := some "task-123", status := some "COMPLETED" }
        { cancelOutcome := CancelOutcome.ok,
          deleteOutcome := DeleteOutcome.ok,
          infoOutcome := InfoOutcome.ok "COMPLETED" }).2 :=
  (teardown_call_pattern
      { api_key := "key", org_name := "org",
        task_id := some "task-123", status := some "COMPLETED" }
      { cancelOutcome := CancelOutcome.ok,
        deleteOutcome := DeleteOutcome.ok,
        infoOutcome := InfoOutcome.ok "COMPLETED" }).2 (by decide)

/-- Python falsiness for an optional string: None and the empty string are
falsy (the source guards with if not x). -/
def falsyOptStr : Option String → Bool
  | none => true
  | some s => s = ""

/-- GPU specification record as carried in the wire config (gpu,
instanceType, backend keys of the gpuSpecification entry). -/
structure GPUSpecification where
  gpu : Option String := none
  instanceType : Option String := none
  backend : Option String := none
deriving DecidableEq, Repr

/-- The nvcf_config wire record read by NVCFAgent.create from
task_template.custom (the camelCase map produced by NVCFTaskConfig.to_dict).
Environment variables, models and secrets are key-value lists. -/
structure TaskConfigRecord where
  name : Option String := none
  containerImage : Option String := none
  containerArgs : Option String := none
  containerEnvironment : List (String × String) := []
  gpuSpecification : Option GPUSpecification := none
  modelList : List (String × String) := []
  maxRuntimeDuration : Option String := none
  maxQueuedDuration : Option String := none
  terminationGracePeriodDuration : Option String := none
  secrets : List (String × String) := []
  resultHandlingStrategy : Option String := none
  resultsLocation : Option String := none
deriving DecidableEq, Repr

/-- The slice of a Flyte TaskTemplate that NVCFAgent.create reads: the
api_key, org_name and nvcf_config entries of template.custom.  An absent or
empty nvcf_config dict is none (both are falsy in the source guard). -/
structure TaskTemplate where
  api_key : Option String := none
  org_name : Option String := none
  nvcf_config : Option TaskConfigRecord := none
deriving DecidableEq, Repr

/-- NVCFAgent._get_metadata (agent.py lines 351-368): fail when api_key or
org_name is missing (falsy), else build a metadata carrying them. -/
def _get_metadata (t : TaskTemplate) : Except String NVCFMetadata :=
  if falsyOptStr t.api_key then
    Except.error "NVCF API key is missing. Please provide api_key in task definition."
  else if falsyOptStr t.org_name then
    Except.error "Organization name is missing. Please provide org_name in task definition."
  else
    Except.ok { api_key := t.api_key.getD "", org_name := t.org_name.getD "" }

/-- Outcome of the client.cloud_function.tasks.create network submit call. -/
inductive SubmitOutcome where
  | ok (taskId : String) (status : String) (createdAt : String)
  | error (msg : String)
deriving DecidableEq, Repr

/-- Duration conversion step of NVCFAgent.create: a duration key is parsed
with isodate.parse_duration only when present and truthy; parse failures
propagate out of create uncaught (the parse happens outside the try block).
parse_duration itself is an external library, so it is passed in as a
parameter. -/
def parseOptDur (parseDur : String → Except String Int) :
    Option String → Except String (Option Int)
  | none => Except.ok none
  | some d => if d = "" then Except.ok none else (parseDur d).map some

/-- NVCFAgent.create (agent.py lines 61-181).  Steps in source order:
extract metadata (may fail), require a non-empty nvcf_config, require a
gpuSpecification (its absence raises before anything is submitted), convert
the three duration fields, then issue the single network submit call; a
submit exception is re-raised as a create failure.  The list records the
network submit calls issued. -/
def create (parseDur : String → Except String Int) (t : TaskTemplate)
    (submit : SubmitOutcome) : Except String NVCFMetadata × List Call :=
  match _get_metadata t with
  | Except.error e => (Except.error e, [])
  | Except.ok metadata =>
    match t.nvcf_config with
    | none => (Except.error "NVCF task configuration is missing.", [])
    | some cfg =>
      match cfg.gpuSpecification with
      | none => (Except.error "GPU specification is required", [])
      | some _gpu =>
        match parseOptDur parseDur cfg.maxRuntimeDuration with
        | Except.error e => (Except.error e, [])
        | Except.ok _ =>
          match parseOptDur parseDur cfg.maxQueuedDuration with
          | Except.error e => (Except.error e, [])
          | Except.ok _ =>
            match parseOptDur parseDur cfg.terminationGracePeriodDuration with
            | Except.error e => (Except.error e, [])
            | Except.ok _ =>
              match submit with
              | SubmitOutcome.error e =>
                  (Except.error ("Failed to create NVCF task: " ++ e),
                   [Call.createCall])
              | SubmitOutcome.ok tid st cat =>
                  (Except.ok
                    { api_key := metadata.api_key,
                      org_name := metadata.org_name,
                      base_url := metadata.base_url,
                      task_id := some tid,
                      name := cfg.name,
                      status := some st,
                      percent_complete := some 0,
                      created_at := some cat },
                   [Call.createCall])

/-- A task template whose config lacks the gpuSpecification record. -/
def lacksGpuSpec (t : TaskTemplate) : Prop :=
  match t.nvcf_config with
  | none => True
  | some cfg => cfg.gpuSpecification = none

/-- C5: for every task template whose nvcf_config lacks a gpuSpecification
record, create always fails with an error and performs no network submit
call, whatever the duration parser and whatever the remote would have
answered. -/
theorem create_without_gpu_fails (parseDur : String → Except String Int)
    (t : TaskTemplate) (submit : SubmitOutcome) (h : lacksGpuSpec t) :
    (∃ e, (create parseDur t submit).1 = Except.error e) ∧
    (create parseDur t submit).2 = [] := by
  unfold create
  cases hm : _get_metadata t with
  | error e => exact ⟨⟨e, rfl⟩, rfl⟩
  | ok md =>
    cases hcfg : t.nvcf_config with
    | none => exact ⟨⟨"NVCF task configuration is missing.", rfl⟩, rfl⟩
    | some cfg =>
      unfold lacksGpuSpec at h
      rw [hcfg] at h
      dsimp only at h ⊢
      rw [h]
      exact ⟨⟨"GPU specification is required", rfl⟩, rfl⟩

/-- A concrete template with credentials but no gpuSpecification entry. -/
def templateNoGpu : TaskTemplate :=
  { api_key := some "key", org_name := some "org",
    nvcf_config := some { name := some "my-task",
                          containerImage := some "img:latest" } }

/-- C5 witness: instantiated at templateNoGpu with a trivial duration parser
and a submit outcome that would have succeeded. -/
theorem create_without_gpu_fails_witness :
    (∃ e, (create (fun _ => Except.ok 0) templateNoGpu
        (SubmitOutcome.ok "task-123" "QUEUED" "2024-01-01")).1
          = Except.error e) ∧
    (create (fun _ => Except.ok 0) templateNoGpu
        (SubmitOutcome.ok "task-123" "QUEUED" "2024-01-01")).2 = [] :=
  create_without_gpu_fails (fun _ => Except.ok 0) templateNoGpu
    (SubmitOutcome.ok "task-123" "QUEUED" "2024-01-01")
    (by simp [lacksGpuSpec, templateNoGpu])

/-- NVCFTaskConfig from models.py: the validated task configuration whose
fields mirror the attributes assigned by __init__ after validation passes.
The api_key and org_name attributes hold the (non-falsy) provided values. -/
structure NVCFTaskConfig where
  name : String
  container_image : String
  gpu_specification : GPUSpecification
  container_args : Option String
  container_environment : List (String × String)
  modelList : List (String × String)
  secrets : List (String × String)
  max_runtime_duration : Option String
  max_queued_duration : Option String
  termination_grace_period_duration : Option String
  result_handling_strategy : String
  results_location : Option String
  api_key : String
  org_name : String
  base_url : String
deriving DecidableEq, Repr

/-- NVCFTaskConfig.__init__ (models.py lines 12-72), in source order: raise
when result_handling_strategy is UPLOAD and results_location is falsy, raise
when api_key is falsy, raise when org_name is falsy, otherwise assign every
field.  No adapter or network call exists anywhere in this constructor. -/
def NVCFTaskConfig_init (name container_image : String)
    (gpu_specification : GPUSpecification)
    (container_args : Option String)
    (container_environment : List (String × String))
    (modelList : List (String × String))
    (secrets : List (String × String))
    (max_runtime_duration : Option String)
    (max_queued_duration : Option String)
    (termination_grace_period_duration : Option String)
    (result_handling_strategy : String)
    (results_location : Option String)
    (api_key : Option String)
    (org_name : Option String)
    (base_url : String) : Except String NVCFTaskConfig :=
  if result_handling_strategy = "UPLOAD" ∧ falsyOptStr results_location then
    Except.error "results_location is required when result_handling_strategy is UPLOAD"
  else if falsyOptStr api_key then
    Except.error "NVCF API key is required"
  else if falsyOptStr org_name then
    Except.error "NGC organization name is required"
  else
    Except.ok
      { name := name,
        container_image := container_image,
        gpu_specification := gpu_specification,
        container_args := container_args,
        container_environment := container_environment,
        modelList := modelList,
        secrets := secrets,
        max_runtime_duration := max_runtime_duration,
        max_queued_duration := max_queued_duration,
        termination_grace_period_duration := termination_grace_period_duration,
        result_handling_strategy := result_handling_strategy,
        results_location := results_location,
        api_key := api_key.getD "",
        org_name := org_name.getD "",
        base_url := base_url }

/-- C6: constructing a task configuration fails at construction time (a
function that makes no adapter call) whenever the api key is missing, the
org name is missing, or result_handling_strategy is UPLOAD and
results_location is missing; such a configuration never constructs
successfully. -/
theorem config_validation_fails_fast (name container_image : String)
    (gpu_specification : GPUSpecification)
    (container_args : Option String)
    (container_environment modelList secrets : List (String × String))
    (max_runtime_duration max_queued_duration
      termination_grace_period_duration : Option String)
    (result_handling_strategy : String)
    (results_location api_key org_name : Option String)
    (base_url : String)
    (h : falsyOptStr api_key = true ∨ falsyOptStr org_name = true ∨
      (result_handling_strategy = "UPLOAD" ∧
        falsyOptStr results_location = true)) :
    ∃ e, NVCFTaskConfig_init name container_image gpu_specification
        container_args container_environment modelList secrets
        max_runtime_duration max_queued_duration
        termination_grace_period_duration result_handling_strategy
        results_location api_key org_name base_url = Except.error e := by
  unfold NVCFTaskConfig_init
  by_cases h1 : result_handling_strategy = "UPLOAD" ∧
      falsyOptStr results_location
  · exact ⟨_, by rw [if_pos h1]⟩
  · rw [if_neg h1]
    by_cases h2 : (falsyOptStr api_key : Prop)
    · exact ⟨_, by rw [if_pos h2]⟩
    · rw [if_neg h2]
      by_cases h3 : (falsyOptStr org_name : Prop)
      · exact ⟨_, by rw [if_pos h3]⟩
      · exfalso
        rcases h with h | h | h
        · exact h2 (by simp [h])
        · exact h3 (by simp [h])
        · exact h1 ⟨h.1, by simp [h.2]⟩

/-- C6 witness: a configuration with UPLOAD strategy and no results
location, even with credentials present, never constructs. -/
theorem config_validation_fails_fast_witness :
    ∃ e, NVCFTaskConfig_init "my-task" "img:latest" {} none [] [] []
        none (some "PT6H") (some "PT15M") "UPLOAD" none (some "key")
        (some "org") "https://api.nvct.nvidia.com/v1/nvct"
        = Except.error e :=
  config_validation_fails_fast "my-task" "img:latest" {} none [] [] []
    none (some "PT6H") (some "PT15M") "UPLOAD" none (some "key")
    (some "org") "https://api.nvct.nvidia.com/v1/nvct"
    (Or.inr (Or.inr ⟨rfl, rfl⟩))

end NVCF
